import Mathlib

/-!
Shallow embedding of the two logic-bearing components of the
SCD30-MQTT-Domoticz firmware: the `DateTime` ISO8601 splitter
(src/DateTime/DateTime.cpp) and the `myns::Logging` severity gate
(src/Logging/Logging.cpp).

C strings are modelled as `List Char` ending where the first NUL byte
would sit; `strncpy` plus the explicit terminator write is modelled by
`cstrTake`; `atoi` is modelled with its full semantics (leading
whitespace, optional sign, longest digit run).  The C++ member
functions are embedded as explicit state passing: a member function
returns its result paired with the object state after the body, and
output to the serial sink is returned as the list of strings printed.
Machine-integer conversions (`int` to `uint16_t` / `uint8_t`) are
modelled by reduction modulo 2^16 / 2^8.
-/

/-- The NUL byte terminating a C string. -/
def nulChar : Char := Char.ofNat 0

/-- C locale digit test, as used by `atoi`: the character codes of '0'..'9'. -/
def isDigitChar (c : Char) : Bool := 48 ≤ c.toNat && c.toNat ≤ 57

/-- C locale whitespace test, as skipped by `atoi`: space, TAB, LF, VT, FF, CR. -/
def isSpaceChar (c : Char) : Bool :=
  c.toNat == 32 || c.toNat == 9 || c.toNat == 10 || c.toNat == 11 || c.toNat == 12 || c.toNat == 13

/-- Numeric value of a decimal digit character. -/
def digitVal (c : Char) : Nat := c.toNat - 48

/-- The string stored in a buffer after `strncpy(dst, src, n)` followed by
`dst[n] = 0`: the bytes of `src` before its terminator, at most `n` of them. -/
def cstrTake : Nat → List Char → List Char
  | 0, _ => []
  | _ + 1, [] => []
  | n + 1, c :: cs => if c = nulChar then [] else c :: cstrTake n cs

/-- Raw contents of an `n`-byte buffer after `strncpy` wrote the string `l`
into it: the string bytes, then NUL padding up to length `n`. -/
def padTo (l : List Char) (n : Nat) : List Char :=
  l ++ List.replicate (n - l.length) nulChar

/-- Leading-whitespace skipping performed by `atoi`. -/
def skipSpaces : List Char → List Char
  | [] => []
  | c :: cs => if isSpaceChar c then skipSpaces cs else c :: cs

/-- Longest-prefix decimal accumulation performed by `atoi` after the sign. -/
def parseDigits : List Char → Nat → Nat
  | [], acc => acc
  | c :: cs, acc => if isDigitChar c then parseDigits cs (acc * 10 + digitVal c) else acc

/-- Sign handling of `atoi` after whitespace skipping. -/
def atoiSigned (l : List Char) : Int :=
  match l with
  | [] => 0
  | c :: cs =>
    if c = '-' then -(parseDigits cs 0 : Int)
    else if c = '+' then (parseDigits cs 0 : Int)
    else (parseDigits (c :: cs) 0 : Int)

/-- C `atoi`: skip whitespace, read an optional sign, then the longest run
of decimal digits; yields 0 when no digits follow. -/
def atoi (l : List Char) : Int := atoiSigned (skipSpaces l)

/-- Conversion of a C `int` to `uint16_t`: reduction modulo 2^16. -/
def intToUInt16 (i : Int) : Nat := (i % 65536).toNat

/-- Conversion of a C `int` to `uint8_t`: reduction modulo 2^8. -/
def intToUInt8 (i : Int) : Nat := (i % 256).toNat

/-- Fields of a constructed `DateTime` object: the two stored C strings
and the six parsed machine integers (`uint16_t` year, `uint8_t` rest). -/
structure DateTime where
  dateonlyF : List Char
  timeonlyF : List Char
  yearF : Nat
  monthF : Nat
  dayF : Nat
  hourF : Nat
  minuteF : Nat
  secondF : Nat
deriving DecidableEq

/-- The constructor `DateTime::DateTime(const char* datetime)`:
`strncpy` of the 10-byte date prefix into `dateonlyF` (terminated at
index 10), extraction of year/month/day from that buffer, `strncpy` of
the 5 bytes at offset 11 into `timeonlyF` (terminated at index 5),
extraction of hour/minute/second from offsets 11/14/17 of the input,
and `atoi` conversion of each group with the C integer conversions of
the member types. -/
def DateTime.construct (datetime : List Char) : DateTime :=
  let dOnly := cstrTake 10 datetime
  let dateBuf := padTo dOnly 11
  let y := cstrTake 4 dateBuf
  let M := cstrTake 2 (dateBuf.drop 5)
  let d := cstrTake 2 (dateBuf.drop 8)
  let tOnly := cstrTake 5 (datetime.drop 11)
  let h := cstrTake 2 (datetime.drop 11)
  let m := cstrTake 2 (datetime.drop 14)
  let s := cstrTake 2 (datetime.drop 17)
  { dateonlyF := dOnly
    timeonlyF := tOnly
    yearF := intToUInt16 (atoi y)
    monthF := intToUInt8 (atoi M)
    dayF := intToUInt8 (atoi d)
    hourF := intToUInt8 (atoi h)
    minuteF := intToUInt8 (atoi m)
    secondF := intToUInt8 (atoi s) }

/-- Accessor `DateTime::dateonly()`: returns the stored date string; the
body performs no member assignment, so the object after the call is the
receiver unchanged. -/
def DateTime.dateonly (dt : DateTime) : List Char × DateTime := (dt.dateonlyF, dt)

/-- Accessor `DateTime::timeonly()`. -/
def DateTime.timeonly (dt : DateTime) : List Char × DateTime := (dt.timeonlyF, dt)

/-- Accessor `DateTime::year()`. -/
def DateTime.year (dt : DateTime) : Nat × DateTime := (dt.yearF, dt)

/-- Accessor `DateTime::month()`. -/
def DateTime.month (dt : DateTime) : Nat × DateTime := (dt.monthF, dt)

/-- Accessor `DateTime::day()`. -/
def DateTime.day (dt : DateTime) : Nat × DateTime := (dt.dayF, dt)

/-- Accessor `DateTime::hour()`. -/
def DateTime.hour (dt : DateTime) : Nat × DateTime := (dt.hourF, dt)

/-- Accessor `DateTime::minute()`. -/
def DateTime.minute (dt : DateTime) : Nat × DateTime := (dt.minuteF, dt)

/-- Accessor `DateTime::second()`. -/
def DateTime.second (dt : DateTime) : Nat × DateTime := (dt.secondF, dt)

/-- State of a `myns::Logging` object: the `uint16_t` global switch and the
ten-entry `uint16_t logLevelConfig` table, indexed by the in-bounds
subsystem identifiers 0..9. -/
structure Logging where
  logGlobal : Nat
  logLevelConfig : Fin 10 → Nat

/-- `Logging::LogGlobalOn()`: unconditionally sets the global switch to 1. -/
def Logging.LogGlobalOn (st : Logging) : Logging := { st with logGlobal := 1 }

/-- `Logging::LogGlobalOff()`: unconditionally sets the global switch to 0. -/
def Logging.LogGlobalOff (st : Logging) : Logging := { st with logGlobal := 0 }

/-- `Logging::LogGlobalState()`: returns the global switch value; the body
performs no member assignment, so the state after the call is unchanged. -/
def Logging.LogGlobalState (st : Logging) : Nat × Logging := (st.logGlobal, st)

/-- The constructor `Logging::Logging()`: begins serial output and calls
`LogGlobalOn`.  It never writes `logLevelConfig`, so the table keeps the
contents the object memory held before the constructor ran; that
pre-construction state is the argument `pre`. -/
def Logging.construct (pre : Logging) : Logging := Logging.LogGlobalOn pre

/-- `Logging::SetLogLevel(int subsys, uint16_t lvl)`: stores `lvl` (as a
`uint16_t`, i.e. modulo 2^16) into the table entry of `subsys`. -/
def Logging.SetLogLevel (st : Logging) (subsys : Fin 10) (lvl : Nat) : Logging :=
  { st with logLevelConfig := fun j => if j = subsys then lvl % 65536 else st.logLevelConfig j }

/-- `Logging::GetLogLevel(uint16_t subsys)`: reads the table entry of
`subsys`; no member assignment, state unchanged. -/
def Logging.GetLogLevel (st : Logging) (subsys : Fin 10) : Nat × Logging :=
  (st.logLevelConfig subsys, st)

/-- The three-argument `Logging::Log(uint16_t subsys, uint16_t lvl, const char* msg)`:
when `LogGlobalState()` is truthy (nonzero) and `GetLogLevel(subsys) <= lvl`,
prints `msg` to the serial sink.  Returns the state after the call and the
list of strings printed.  `lvl` is reduced modulo 2^16 as the `uint16_t`
argument conversion. -/
def Logging.Log3 (st : Logging) (subsys : Fin 10) (lvl : Nat) (msg : String) :
    Logging × List String :=
  let g := Logging.LogGlobalState st
  if g.1 ≠ 0 then
    let t := Logging.GetLogLevel g.2 subsys
    if t.1 ≤ lvl % 65536 then (t.2, [msg]) else (t.2, [])
  else (g.2, [])

/-- The four-argument overload
`Logging::Log(uint16_t subsys, uint16_t lvl, const char* msg, int value)`:
its body is empty. -/
def Logging.Log4 (st : Logging) (_subsys : Fin 10) (_lvl : Nat) (_msg : String)
    (_value : Int) : Logging × List String :=
  (st, [])

/-! ### Helper lemmas about digit characters and `atoi` -/

lemma isDigitChar_bounds (c : Char) (h : isDigitChar c = true) :
    48 ≤ c.toNat ∧ c.toNat ≤ 57 := by
  simpa [isDigitChar, Bool.and_eq_true, decide_eq_true_iff] using h

lemma digit_ne_nul (c : Char) (h : isDigitChar c = true) : ¬(c = nulChar) := by
  intro he
  subst he
  exact absurd h (by decide)

lemma digit_not_space (c : Char) (h : isDigitChar c = true) : isSpaceChar c = false := by
  have hb := isDigitChar_bounds c h
  simp [isSpaceChar]
  omega

lemma digit_ne_dash (c : Char) (h : isDigitChar c = true) : ¬(c = '-') := by
  intro he
  subst he
  exact absurd h (by decide)

lemma digit_ne_plus (c : Char) (h : isDigitChar c = true) : ¬(c = '+') := by
  intro he
  subst he
  exact absurd h (by decide)

lemma digitVal_le_nine (c : Char) (h : isDigitChar c = true) : digitVal c ≤ 9 := by
  have hb := isDigitChar_bounds c h
  simp [digitVal]
  omega

lemma atoi_two (a b : Char) (ha : isDigitChar a = true) (hb : isDigitChar b = true) :
    atoi [a, b] = ((10 * digitVal a + digitVal b : Nat) : Int) := by
  simp [atoi, skipSpaces, digit_not_space a ha, atoiSigned, digit_ne_dash a ha,
    digit_ne_plus a ha, parseDigits, ha, hb]
  ring

lemma atoi_four (a b c d : Char) (ha : isDigitChar a = true) (hb : isDigitChar b = true)
    (hc : isDigitChar c = true) (hd : isDigitChar d = true) :
    atoi [a, b, c, d] =
      ((1000 * digitVal a + 100 * digitVal b + 10 * digitVal c + digitVal d : Nat) : Int) := by
  simp [atoi, skipSpaces, digit_not_space a ha, atoiSigned, digit_ne_dash a ha,
    digit_ne_plus a ha, parseDigits, ha, hb, hc, hd]
  ring

lemma intToUInt16_ofNat (v : Nat) (h : v < 65536) : intToUInt16 (v : Int) = v := by
  simp [intToUInt16]
  omega

lemma intToUInt8_ofNat (v : Nat) (h : v < 256) : intToUInt8 (v : Int) = v := by
  simp [intToUInt8]
  omega

/-! ### Claims -/

/-- Claim C1: for every input character sequence of length at least 19 matching
the layout YYYY-MM-DDTHH:MM:SS (any further characters ignored), the
constructed DateTime has dateonly() equal to the 10-character prefix,
timeonly() equal to the 5 characters at offset 11, and year/month/day/hour/
minute/second equal to the decimal values of the digit groups at offsets
0/5/8/11/14/17, leading zeros parsed correctly. -/
theorem C1_datetime_parse (l : List Char) (y1 y2 y3 y4 M1 M2 d1 d2 h1 h2 n1 n2 s1 s2 : Char)
    (rest : List Char)
    (hl : l = y1 :: y2 :: y3 :: y4 :: '-' :: M1 :: M2 :: '-' :: d1 :: d2 :: 'T' ::
      h1 :: h2 :: ':' :: n1 :: n2 :: ':' :: s1 :: s2 :: rest)
    (hy1 : isDigitChar y1 = true) (hy2 : isDigitChar y2 = true)
    (hy3 : isDigitChar y3 = true) (hy4 : isDigitChar y4 = true)
    (hM1 : isDigitChar M1 = true) (hM2 : isDigitChar M2 = true)
    (hd1 : isDigitChar d1 = true) (hd2 : isDigitChar d2 = true)
    (hh1 : isDigitChar h1 = true) (hh2 : isDigitChar h2 = true)
    (hn1 : isDigitChar n1 = true) (hn2 : isDigitChar n2 = true)
    (hs1 : isDigitChar s1 = true) (hs2 : isDigitChar s2 = true) :
    (DateTime.construct l).dateonly.1 = l.take 10
    ∧ (DateTime.construct l).timeonly.1 = (l.drop 11).take 5
    ∧ (DateTime.construct l).year.1 =
        1000 * digitVal y1 + 100 * digitVal y2 + 10 * digitVal y3 + digitVal y4
    ∧ (DateTime.construct l).month.1 = 10 * digitVal M1 + digitVal M2
    ∧ (DateTime.construct l).day.1 = 10 * digitVal d1 + digitVal d2
    ∧ (DateTime.construct l).hour.1 = 10 * digitVal h1 + digitVal h2
    ∧ (DateTime.construct l).minute.1 = 10 * digitVal n1 + digitVal n2
    ∧ (DateTime.construct l).second.1 = 10 * digitVal s1 + digitVal s2 := by
  subst hl
  have ey1 := digit_ne_nul y1 hy1
  have ey2 := digit_ne_nul y2 hy2
  have ey3 := digit_ne_nul y3 hy3
  have ey4 := digit_ne_nul y4 hy4
  have eM1 := digit_ne_nul M1 hM1
  have eM2 := digit_ne_nul M2 hM2
  have ed1 := digit_ne_nul d1 hd1
  have ed2 := digit_ne_nul d2 hd2
  have eh1 := digit_ne_nul h1 hh1
  have eh2 := digit_ne_nul h2 hh2
  have en1 := digit_ne_nul n1 hn1
  have en2 := digit_ne_nul n2 hn2
  have es1 := digit_ne_nul s1 hs1
  have es2 := digit_ne_nul s2 hs2
  have edash : ¬(('-' : Char) = nulChar) := by decide
  have eT : ¬(('T' : Char) = nulChar) := by decide
  have ecolon : ¬((':' : Char) = nulChar) := by decide
  simp only [DateTime.construct, DateTime.dateonly, DateTime.timeonly, DateTime.year,
    DateTime.month, DateTime.day, DateTime.hour, DateTime.minute, DateTime.second,
    cstrTake, padTo, List.drop, List.take, List.length, List.replicate, List.cons_append,
    List.nil_append, if_neg ey1, if_neg ey2, if_neg ey3, if_neg ey4, if_neg eM1, if_neg eM2,
    if_neg ed1, if_neg ed2, if_neg eh1, if_neg eh2, if_neg en1, if_neg en2, if_neg es1,
    if_neg es2, if_neg edash, if_neg eT, if_neg ecolon]
  have b1 := digitVal_le_nine y1 hy1
  have b2 := digitVal_le_nine y2 hy2
  have b3 := digitVal_le_nine y3 hy3
  have b4 := digitVal_le_nine y4 hy4
  have b5 := digitVal_le_nine M1 hM1
  have b6 := digitVal_le_nine M2 hM2
  have b7 := digitVal_le_nine d1 hd1
  have b8 := digitVal_le_nine d2 hd2
  have b9 := digitVal_le_nine h1 hh1
  have b10 := digitVal_le_nine h2 hh2
  have b11 := digitVal_le_nine n1 hn1
  have b12 := digitVal_le_nine n2 hn2
  have b13 := digitVal_le_nine s1 hs1
  have b14 := digitVal_le_nine s2 hs2
  rw [atoi_four y1 y2 y3 y4 hy1 hy2 hy3 hy4, atoi_two M1 M2 hM1 hM2, atoi_two d1 d2 hd1 hd2,
    atoi_two h1 h2 hh1 hh2, atoi_two n1 n2 hn1 hn2, atoi_two s1 s2 hs1 hs2,
    intToUInt16_ofNat, intToUInt8_ofNat, intToUInt8_ofNat, intToUInt8_ofNat,
    intToUInt8_ofNat, intToUInt8_ofNat]
  · exact ⟨trivial, trivial, rfl, rfl, rfl, rfl, rfl, rfl⟩
  all_goals omega

/-- Witness for C1 at the two concrete inputs of the claim. -/
theorem C1_datetime_parse_witness :
    (DateTime.construct ("2019-06-08T13:52:53+0200".toList)).dateonly.1 = "2019-06-08".toList
    ∧ (DateTime.construct ("2019-06-08T13:52:53+0200".toList)).timeonly.1 = "13:52".toList
    ∧ (DateTime.construct ("2019-06-08T13:52:53+0200".toList)).year.1 = 2019
    ∧ (DateTime.construct ("2019-06-08T13:52:53+0200".toList)).month.1 = 6
    ∧ (DateTime.construct ("2019-06-08T13:52:53+0200".toList)).day.1 = 8
    ∧ (DateTime.construct ("2019-06-08T13:52:53+0200".toList)).hour.1 = 13
    ∧ (DateTime.construct ("2019-06-08T13:52:53+0200".toList)).minute.1 = 52
    ∧ (DateTime.construct ("2019-06-08T13:52:53+0200".toList)).second.1 = 53
    ∧ (DateTime.construct ("2005-01-02T03:04:05Z".toList)).year.1 = 2005
    ∧ (DateTime.construct ("2005-01-02T03:04:05Z".toList)).month.1 = 1
    ∧ (DateTime.construct ("2005-01-02T03:04:05Z".toList)).day.1 = 2
    ∧ (DateTime.construct ("2005-01-02T03:04:05Z".toList)).hour.1 = 3
    ∧ (DateTime.construct ("2005-01-02T03:04:05Z".toList)).minute.1 = 4
    ∧ (DateTime.construct ("2005-01-02T03:04:05Z".toList)).second.1 = 5 := by
  have hA := C1_datetime_parse ("2019-06-08T13:52:53+0200".toList) '2' '0' '1' '9' '0' '6'
    '0' '8' '1' '3' '5' '2' '5' '3' ("+0200".toList) (by decide) (by decide) (by decide)
    (by decide) (by decide) (by decide) (by decide) (by decide) (by decide) (by decide)
    (by decide) (by decide) (by decide) (by decide) (by decide)
  have hB := C1_datetime_parse ("2005-01-02T03:04:05Z".toList) '2' '0' '0' '5' '0' '1'
    '0' '2' '0' '3' '0' '4' '0' '5' ("Z".toList) (by decide) (by decide) (by decide)
    (by decide) (by decide) (by decide) (by decide) (by decide) (by decide) (by decide)
    (by decide) (by decide) (by decide) (by decide) (by decide)
  obtain ⟨a1, a2, a3, a4, a5, a6, a7, a8⟩ := hA
  obtain ⟨c1, c2, c3, c4, c5, c6, c7, c8⟩ := hB
  exact ⟨by rw [a1]; decide, by rw [a2]; decide, by rw [a3]; decide, by rw [a4]; decide,
    by rw [a5]; decide, by rw [a6]; decide, by rw [a7]; decide, by rw [a8]; decide,
    by rw [c3]; decide, by rw [c4]; decide, by rw [c5]; decide, by rw [c6]; decide,
    by rw [c7]; decide, by rw [c8]; decide⟩

/-- Claim C2: Log(subsystem, severity, message) writes the message to the
output sink if and only if LogGlobalState() is nonzero AND
GetLogLevel(subsystem) <= severity; the comparison is inclusive at the
boundary: for a subsystem with threshold 5, severity 5 and 6 are written,
severity 4 is not. -/
theorem C2_log_filtering (st : Logging) (subsys : Fin 10) (lvl : Nat) (msg : String)
    (hlvl : lvl < 65536) :
    ((Logging.Log3 st subsys lvl msg).2 =
      if (Logging.LogGlobalState st).1 ≠ 0 ∧ (Logging.GetLogLevel st subsys).1 ≤ lvl
      then [msg] else [])
    ∧ ((Logging.GetLogLevel st subsys).1 = 5 → (Logging.LogGlobalState st).1 ≠ 0 →
        ((Logging.Log3 st subsys 5 msg).2 = [msg]
          ∧ (Logging.Log3 st subsys 4 msg).2 = []
          ∧ (Logging.Log3 st subsys 6 msg).2 = [msg])) := by
  constructor
  · simp only [Logging.Log3, Logging.LogGlobalState, Logging.GetLogLevel,
      Nat.mod_eq_of_lt hlvl]
    by_cases hg : st.logGlobal = 0 <;> by_cases hc : st.logLevelConfig subsys ≤ lvl <;>
      simp [hg, hc]
  · intro h5 hg
    simp only [Logging.LogGlobalState] at hg
    simp only [Logging.GetLogLevel] at h5
    refine ⟨?_, ?_, ?_⟩ <;>
      simp [Logging.Log3, Logging.LogGlobalState, Logging.GetLogLevel, h5, hg]

/-- Witness for C2 at a concrete state with threshold 5 and global on. -/
theorem C2_log_filtering_witness :
    (5 : Nat) < 65536
    ∧ (Logging.Log3 ⟨1, fun _ => 5⟩ 0 5 "m").2 = ["m"]
    ∧ (Logging.Log3 ⟨1, fun _ => 5⟩ 0 4 "m").2 = []
    ∧ (Logging.Log3 ⟨1, fun _ => 5⟩ 0 6 "m").2 = ["m"] := by
  refine ⟨by decide, ?_⟩
  exact (C2_log_filtering ⟨1, fun _ => 5⟩ 0 5 "m" (by decide)).2 rfl (by decide)

/-- Claim C3 counterexample: the claim says GetLogLevel returns 0 for every
untouched subsystem immediately after construction, but the constructor
never writes the threshold table; if the object memory held 5 in an entry
before the constructor ran, GetLogLevel returns 5, not 0. -/
theorem C3_default_zero_counterexample :
    (Logging.GetLogLevel (Logging.construct ⟨0, fun _ => 5⟩) 0).1 ≠ 0 := by decide

/-- Claim C3, amended: after construction, GetLogLevel(s) returns exactly the
pre-construction contents of table entry s (the constructor leaves the table
untouched); it returns 0 precisely when that entry already held 0 before the
constructor ran, as with zero-initialized static storage. -/
theorem C3_default_level (pre : Logging) (s : Fin 10) :
    (Logging.GetLogLevel (Logging.construct pre) s).1 = pre.logLevelConfig s
    ∧ (pre.logLevelConfig s = 0 → (Logging.GetLogLevel (Logging.construct pre) s).1 = 0) := by
  exact ⟨rfl, fun h => h⟩

/-- Witness for C3's amended statement at two concrete pre-construction states. -/
theorem C3_default_level_witness :
    (Logging.GetLogLevel (Logging.construct ⟨3, fun _ => 7⟩) 0).1 = 7
    ∧ (Logging.GetLogLevel (Logging.construct ⟨3, fun _ => 0⟩) 0).1 = 0 :=
  ⟨(C3_default_level ⟨3, fun _ => 7⟩ 0).1, (C3_default_level ⟨3, fun _ => 0⟩ 0).2 rfl⟩

/-- Claim C4 counterexample: the claim says the off/on round trip restores
the prior filtering behavior for every logger state, but when the global
switch was already off (e.g. right after a LogGlobalOff on a fresh object
with a zeroed table), the round trip turns logging on: a message suppressed
before the round trip is written after it. -/
theorem C4_roundtrip_counterexample :
    (Logging.Log3
        (Logging.LogGlobalOn (Logging.LogGlobalOff
          (Logging.LogGlobalOff (Logging.construct ⟨0, fun _ => 0⟩)))) 0 0 "m").2
      ≠ (Logging.Log3 (Logging.LogGlobalOff (Logging.construct ⟨0, fun _ => 0⟩)) 0 0 "m").2 := by
  decide

/-- Claim C4, amended: after LogGlobalOff() every Log call writes nothing,
and the threshold table is unaffected by the off/on round trip in all cases;
the round trip restores the prior Log filtering behavior exactly provided
the global switch was on (nonzero) before the LogGlobalOff() call. -/
theorem C4_global_off_on (st : Logging) (s : Fin 10) (lvl : Nat) (msg : String) :
    (Logging.Log3 (Logging.LogGlobalOff st) s lvl msg).2 = []
    ∧ (Logging.LogGlobalOn (Logging.LogGlobalOff st)).logLevelConfig = st.logLevelConfig
    ∧ (st.logGlobal ≠ 0 →
        (Logging.Log3 (Logging.LogGlobalOn (Logging.LogGlobalOff st)) s lvl msg).2
          = (Logging.Log3 st s lvl msg).2) := by
  refine ⟨?_, rfl, ?_⟩
  · simp [Logging.Log3, Logging.LogGlobalState, Logging.LogGlobalOff]
  · intro hg
    simp [Logging.Log3, Logging.LogGlobalState, Logging.LogGlobalOff, Logging.LogGlobalOn,
      Logging.GetLogLevel, hg]
    split <;> rfl

/-- Witness for C4's amended statement at a concrete state with global on. -/
theorem C4_global_off_on_witness :
    (Logging.Log3 (Logging.LogGlobalOff ⟨1, fun _ => 0⟩) 0 9 "m").2 = []
    ∧ (Logging.Log3 (Logging.LogGlobalOn (Logging.LogGlobalOff ⟨1, fun _ => 0⟩)) 0 9 "m").2
        = (Logging.Log3 ⟨1, fun _ => 0⟩ 0 9 "m").2 := by
  have h := C4_global_off_on ⟨1, fun _ => 0⟩ 0 9 "m"
  exact ⟨h.1, h.2.2 (by decide)⟩

/-- Claim C5: for every logger state, in-bounds subsystem s and threshold
value l (a uint16_t value), SetLogLevel(s, l) followed by GetLogLevel(s)
returns l. -/
theorem C5_set_then_get (st : Logging) (s : Fin 10) (l : Nat) (hl : l < 65536) :
    (Logging.GetLogLevel (Logging.SetLogLevel st s l) s).1 = l := by
  simp [Logging.GetLogLevel, Logging.SetLogLevel, Nat.mod_eq_of_lt hl]

/-- Witness for C5 at a concrete state, subsystem and level. -/
theorem C5_set_then_get_witness :
    (7 : Nat) < 65536
    ∧ (Logging.GetLogLevel (Logging.SetLogLevel ⟨1, fun _ => 0⟩ 3 7) 3).1 = 7 :=
  ⟨by decide, C5_set_then_get ⟨1, fun _ => 0⟩ 3 7 (by decide)⟩

/-- Claim C6: the four-argument Log overload has an empty body: it writes
nothing to the sink and returns the logger state unchanged (global switch
and all thresholds). -/
theorem C6_log4_noop (st : Logging) (s : Fin 10) (lvl : Nat) (msg : String) (value : Int) :
    Logging.Log4 st s lvl msg value = (st, []) := rfl

/-- Claim C7: immediately after construction the global switch is enabled
(LogGlobalState() returns 1, which is truthy), and LogGlobalState() always
returns the current value of the global switch as last set by
LogGlobalOn()/LogGlobalOff(). -/
theorem C7_global_switch (pre st : Logging) :
    (Logging.LogGlobalState (Logging.construct pre)).1 = 1
    ∧ (Logging.LogGlobalState (Logging.LogGlobalOn st)).1 = 1
    ∧ (Logging.LogGlobalState (Logging.LogGlobalOff st)).1 = 0
    ∧ (Logging.LogGlobalState st).1 = st.logGlobal :=
  ⟨rfl, rfl, rfl, rfl⟩

/-- Claim C8: the eight DateTime accessors are side-effect free and
idempotent: each returns the receiver unchanged, and a repeated call on the
returned object yields the identical value. -/
theorem C8_accessors_pure (dt : DateTime) :
    (dt.dateonly.2 = dt ∧ dt.dateonly.2.dateonly.1 = dt.dateonly.1)
    ∧ (dt.timeonly.2 = dt ∧ dt.timeonly.2.timeonly.1 = dt.timeonly.1)
    ∧ (dt.year.2 = dt ∧ dt.year.2.year.1 = dt.year.1)
    ∧ (dt.month.2 = dt ∧ dt.month.2.month.1 = dt.month.1)
    ∧ (dt.day.2 = dt ∧ dt.day.2.day.1 = dt.day.1)
    ∧ (dt.hour.2 = dt ∧ dt.hour.2.hour.1 = dt.hour.1)
    ∧ (dt.minute.2 = dt ∧ dt.minute.2.minute.1 = dt.minute.1)
    ∧ (dt.second.2 = dt ∧ dt.second.2.second.1 = dt.second.1) :=
  ⟨⟨rfl, rfl⟩, ⟨rfl, rfl⟩, ⟨rfl, rfl⟩, ⟨rfl, rfl⟩, ⟨rfl, rfl⟩, ⟨rfl, rfl⟩, ⟨rfl, rfl⟩,
    ⟨rfl, rfl⟩⟩

/-- Claim C9: the observers Log (three-argument form), GetLogLevel and
LogGlobalState leave the entire logger state unchanged: global switch and
every threshold entry are the same after the call as before. -/
theorem C9_observers_frame (st : Logging) (s : Fin 10) (lvl : Nat) (msg : String) :
    (Logging.Log3 st s lvl msg).1 = st
    ∧ (Logging.GetLogLevel st s).2 = st
    ∧ (Logging.LogGlobalState st).2 = st := by
  refine ⟨?_, rfl, rfl⟩
  simp only [Logging.Log3, Logging.LogGlobalState, Logging.GetLogLevel]
  split
  · split <;> rfl
  · rfl

/-- Claim C10: SetLogLevel(s, l) modifies only the table entry of s: every
other in-bounds subsystem keeps its threshold, and the global switch value
is unchanged. -/
theorem C10_setloglevel_frame (st : Logging) (s j : Fin 10) (l : Nat) (hj : j ≠ s) :
    (Logging.GetLogLevel (Logging.SetLogLevel st s l) j).1 = (Logging.GetLogLevel st j).1
    ∧ (Logging.LogGlobalState (Logging.SetLogLevel st s l)).1
        = (Logging.LogGlobalState st).1 := by
  refine ⟨?_, rfl⟩
  simp [Logging.GetLogLevel, Logging.SetLogLevel, hj]

/-- Witness for C10 at concrete distinct subsystems. -/
theorem C10_setloglevel_frame_witness :
    ((0 : Fin 10) ≠ 1)
    ∧ (Logging.GetLogLevel (Logging.SetLogLevel ⟨1, fun _ => 2⟩ 1 9) 0).1
        = (Logging.GetLogLevel ⟨1, fun _ => 2⟩ 0).1
    ∧ (Logging.LogGlobalState (Logging.SetLogLevel ⟨1, fun _ => 2⟩ 1 9)).1
        = (Logging.LogGlobalState ⟨1, fun _ => 2⟩).1 := by
  have h := C10_setloglevel_frame ⟨1, fun _ => 2⟩ 1 0 9 (by decide)
  exact ⟨by decide, h.1, h.2⟩
